import Mathlib

/-!
Shallow embedding of the SOARapp repository (Wazuh → OpenDaylight SOAR bridge).

Source files embedded:
- `src/soar_logic.py` — `extract_relevant_data`
- `src/odl_api_client.py` — `apply_flow_rule`, `remove_flow_rule`
- `src/wazuh_parser.py` — `get_alert_data`
- `src/logging_utils.py` — `log_message`

Modelling conventions:
- JSON documents are the inductive `Json`; a Python `dict` is an association
  list `List (String × Json)`; Python `None` is `Json.null`.
- Side effects are made explicit: a function that logs returns the list of
  `LogEntry` values it emits, in order; a function that performs HTTP returns
  the list of `HttpRequest` values it issues, in order.  The network itself is
  a parameter `transport : HttpRequest → TransportOutcome`.
- Python exceptions are `Except PyExc`; a function that cannot raise is given
  a plain (total) result type.
-/

/-- A JSON value, as produced by Python's `json.loads`.  JSON numbers are
modelled as integers (`rule.id` is a string or an integral number in this
system; no claim depends on float formatting). -/
inductive Json where
  | null : Json
  | b : Bool → Json
  | i : Int → Json
  | s : String → Json
  | arr : List Json → Json
  | obj : List (String × Json) → Json

/-- A Python exception class, as far as this development needs to
distinguish them. -/
inductive PyExc where
  | attributeError : PyExc
  | nameError : PyExc
deriving DecidableEq

mutual

/-- Python's `repr` on a JSON-shaped value (used by `str` for the elements of
lists and dicts).  String quoting uses `\x27` without reproducing Python's
escaping of special characters inside the string, which no claim depends on. -/
def pyRepr : Json → String
  | Json.null => "None"
  | Json.b true => "True"
  | Json.b false => "False"
  | Json.i n => toString n
  | Json.s t => "\x27" ++ t ++ "\x27"
  | Json.arr l => "[" ++ pyReprList l ++ "]"
  | Json.obj m => "\x7b" ++ pyReprObj m ++ "\x7d"

/-- Comma-separated `repr`s of the elements of a Python list. -/
def pyReprList : List Json → String
  | [] => ""
  | [x] => pyRepr x
  | x :: xs => pyRepr x ++ ", " ++ pyReprList xs

/-- Comma-separated `key: value` `repr`s of the items of a Python dict. -/
def pyReprObj : List (String × Json) → String
  | [] => ""
  | [(k, v)] => "\x27" ++ k ++ "\x27: " ++ pyRepr v
  | (k, v) :: xs => "\x27" ++ k ++ "\x27: " ++ pyRepr v ++ ", " ++ pyReprObj xs

end

/-- Python's `str` on a JSON-shaped value: identity on strings, `repr`-like on
everything else (`str(100001) = "100001"`, `str(None) = "None"`, ...). -/
def pyStr : Json → String
  | Json.s t => t
  | j => pyRepr j

/-- Python `dict.get(key)` on an association list: the value stored under the
first matching key, or absent. -/
def dGet : List (String × Json) → String → Option Json
  | [], _ => none
  | (k, v) :: rest, key => if k = key then some v else dGet rest key

/-- Python `dict.get(key, default)`. -/
def dGetD (d : List (String × Json)) (key : String) (dflt : Json) : Json :=
  match dGet d key with
  | some v => v
  | none => dflt

/-- `j.get(key, default)` where `j` is expected to be a dict.  When `j` is not
a dict the Python attribute lookup `.get` raises `AttributeError`; this total
field-reading helper returns the default in that case, and every theorem that
uses it carries an `alertWf` hypothesis excluding non-dict fields (the raising
execution is modelled by `extract_relevant_data_run`). -/
def jGetD (j : Json) (key : String) (dflt : Json) : Json :=
  match j with
  | Json.obj m => dGetD m key dflt
  | _ => dflt

/-- The alert values whose `"rule"` and `"agent"` fields, when present, are
dicts — exactly the alerts on which `alert.get("rule", {}).get(...)` and
`alert.get("agent", {}).get(...)` do not raise `AttributeError`. -/
def alertWf (alert : List (String × Json)) : Bool :=
  (match dGetD alert "rule" (Json.obj []) with
    | Json.obj _ => true
    | _ => false)
  && (match dGetD alert "agent" (Json.obj []) with
    | Json.obj _ => true
    | _ => false)

/-- One diagnostic record accepted by the log sink: an effective level and a
message. -/
structure LogEntry where
  level : String
  msg : String
deriving DecidableEq

/-- Python `level.upper()`: uppercase each character (ASCII suffices for the
level names this system passes). -/
def pyUpper (s : String) : String :=
  ⟨s.data.map Char.toUpper⟩

/-- `logging_utils.log_message`: uppercases the requested level, dispatches to
the matching `logging` call, and treats any unrecognized level as INFO.  The
produced `LogEntry` carries the effective level. -/
def log_message (message : String) (level : String) : LogEntry :=
  let l := pyUpper level
  if l = "DEBUG" ∨ l = "INFO" ∨ l = "WARNING" ∨ l = "ERROR" ∨ l = "CRITICAL" then
    ⟨l, message⟩
  else
    ⟨"INFO", message⟩

/-- `str(alert.get("rule", {}).get("id", "N/A"))` from
`soar_logic.extract_relevant_data`. -/
def rule_id_of (alert : List (String × Json)) : String :=
  pyStr (jGetD (dGetD alert "rule" (Json.obj [])) "id" (Json.s "N/A"))

/-- `alert.get("srcip")` (absent ↦ `None`, i.e. `Json.null`). -/
def src_ip_of (alert : List (String × Json)) : Json :=
  dGetD alert "srcip" Json.null

/-- `alert.get("dstip")`. -/
def dst_ip_of (alert : List (String × Json)) : Json :=
  dGetD alert "dstip" Json.null

/-- `alert.get("agent", {}).get("ip")`. -/
def agent_ip_of (alert : List (String × Json)) : Json :=
  jGetD (dGetD alert "agent" (Json.obj [])) "ip" Json.null

/-- Execution semantics of `soar_logic.extract_relevant_data`, statement by
statement.  `soar_logic.py` contains no import of `log_message`, and its call
sites also omit the required `level` argument, so the first
`log_message(f"Extracting data for Rule ID: ...")` raises `NameError` on every
path that reaches it; before that, a non-dict `"rule"` or `"agent"` value makes
the `.get` chain raise `AttributeError`.  The function can therefore never
return normally. -/
def extract_relevant_data_run (alert : List (String × Json)) :
    Except PyExc (Json × Option String × String) :=
  match dGetD alert "rule" (Json.obj []) with
  | Json.obj _ =>
    match dGetD alert "agent" (Json.obj []) with
    | Json.obj _ => Except.error PyExc.nameError
    | _ => Except.error PyExc.attributeError
  | _ => Except.error PyExc.attributeError

/-- The `config` module consumed by `odl_api_client` (an external collaborator
per the spec): controller base URL and basic-auth credentials. -/
structure Config where
  ODL_FLOW_BASE_URL : String
  ODL_USERNAME : String
  ODL_PASSWORD : String

/-- One HTTP request as issued through the `requests` library: method, URL,
headers, basic-auth credentials, timeout (seconds), optional JSON body (the
value passed to `json.dumps`), and the TLS-verification flag. -/
structure HttpRequest where
  method : String
  url : String
  headers : List (String × String)
  auth : String × String
  timeout : Nat
  body : Option Json
  verify : Bool

/-- What the network does with one request: either the `requests` call raises
a transport-level `RequestException` (whose `e.response` is `None`), or a
response arrives, carrying a status code, a reason phrase and a body text. -/
inductive TransportOutcome where
  | exn : String → TransportOutcome
  | resp : Nat → String → String → TransportOutcome

/-- `ip_address.replace('.', '-')`: with a single-character pattern, Python's
`str.replace` is exactly a character map. -/
def sanitize_ip (ip : String) : String :=
  ⟨ip.data.map (fun c => if c = '.' then '-' else c)⟩

/-- `f"block-{flow_type}-ip-{sanitized_ip}"` as computed inside
`apply_flow_rule`. -/
def flow_id_apply (flow_type ip : String) : String :=
  "block-" ++ flow_type ++ "-ip-" ++ sanitize_ip ip

/-- `f"block-{flow_type}-ip-{sanitized_ip}"` as computed inside
`remove_flow_rule` (the same two source lines, duplicated there). -/
def flow_id_remove (flow_type ip : String) : String :=
  "block-" ++ flow_type ++ "-ip-" ++ sanitize_ip ip

/-- `Response.raise_for_status` of the `requests` library: raises `HTTPError`
(a `RequestException`) exactly for status codes 400–599, with the message
format `"{code} Client Error: {reason} for url: {url}"` resp. `Server Error`;
returns the error message when one is raised. -/
def http_error_msg (status : Nat) (reason url : String) : Option String :=
  if 400 ≤ status ∧ status < 500 then
    some (toString status ++ " Client Error: " ++ reason ++ " for url: " ++ url)
  else if 500 ≤ status ∧ status < 600 then
    some (toString status ++ " Server Error: " ++ reason ++ " for url: " ++ url)
  else
    none

/-- Python string interpolation of a possibly-`None` string value. -/
def pyOptStr : Option String → String
  | none => "None"
  | some s => s

/-- The `match` dict built by `apply_flow_rule`: an Ethernet/IPv4 clause plus
`ipv4-source` (flow type `src`) or `ipv4-destination` (otherwise) as a `/32`
CIDR. -/
def flow_match (flow_type ip : String) : Json :=
  if flow_type = "src" then
    Json.obj [("ethernet-match", Json.obj [("ethernet-type", Json.obj [("type", Json.i 2048)])]),
      ("ipv4-source", Json.s (ip ++ "/32"))]
  else
    Json.obj [("ethernet-match", Json.obj [("ethernet-type", Json.obj [("type", Json.i 2048)])]),
      ("ipv4-destination", Json.s (ip ++ "/32"))]

/-- The `flow_payload` dict built by `apply_flow_rule`: one flow entry with
the computed id, table 0, a readable name, priority 65535, the match clause,
and a single drop instruction. -/
def flow_payload (flow_type ip : String) : Json :=
  let drop_action : Json :=
    Json.obj [("order", Json.i 0), ("drop-action", Json.obj [])]
  let instruction : Json :=
    Json.obj [("order", Json.i 0),
      ("apply-actions", Json.obj [("action", Json.arr [drop_action])])]
  let entry : Json :=
    Json.obj [
      ("id", Json.s (flow_id_apply flow_type ip)),
      ("table_id", Json.i 0),
      ("flow-name", Json.s ("Block " ++ flow_type ++ " IP " ++ ip)),
      ("priority", Json.i 65535),
      ("match", flow_match flow_type ip),
      ("instructions", Json.obj [("instruction", Json.arr [instruction])])]
  Json.obj [("flow", Json.arr [entry])]

/-- `odl_api_client.apply_flow_rule`, statement by statement.  Returns the
Python result inside `Except` (the sanitization step `ip_address.replace`
raises `AttributeError` when `ip_address` is `None`), paired with the emitted
log entries and the issued HTTP requests, in order. -/
def apply_flow_rule (cfg : Config) (transport : HttpRequest → TransportOutcome)
    (ip_address : Option String) (flow_type : String)
    (node_id : String := "openflow:1") :
    Except PyExc (Bool × List LogEntry × List HttpRequest) :=
  if flow_type ≠ "src" ∧ flow_type ≠ "dst" then
    Except.ok (false,
      [log_message ("[ODL] Invalid flow_type \x27" ++ flow_type ++ "\x27 for IP "
        ++ pyOptStr ip_address) "error"], [])
  else
    match ip_address with
    | none => Except.error PyExc.attributeError
    | some ip =>
      let fid := flow_id_apply flow_type ip
      let table_id : Nat := 0
      let url := cfg.ODL_FLOW_BASE_URL ++ "/node/" ++ node_id ++ "/table/"
        ++ toString table_id ++ "/flow/" ++ fid
      let req : HttpRequest :=
        { method := "PUT", url := url,
          headers := [("Content-Type", "application/json"),
                      ("Accept", "application/json")],
          auth := (cfg.ODL_USERNAME, cfg.ODL_PASSWORD),
          timeout := 10,
          body := some (flow_payload flow_type ip),
          verify := false }
      match transport req with
      | TransportOutcome.exn e =>
        Except.ok (false,
          [log_message ("[ODL] Failed to apply flow rule: " ++ fid ++ " for IP "
            ++ ip ++ " (" ++ flow_type ++ "). Error: " ++ e
            ++ ". Response: None") "error"], [req])
      | TransportOutcome.resp status reason text =>
        match http_error_msg status reason url with
        | some e =>
          Except.ok (false,
            [log_message ("[ODL] Failed to apply flow rule: " ++ fid ++ " for IP "
              ++ ip ++ " (" ++ flow_type ++ "). Error: " ++ e
              ++ ". Response: " ++ text) "error"], [req])
        | none =>
          Except.ok (true,
            [log_message ("[ODL] Successfully applied flow rule: " ++ fid
              ++ " for IP " ++ ip ++ " (" ++ flow_type ++ ")") "info"], [req])

/-- `odl_api_client.remove_flow_rule`, statement by statement; same validation,
identifier and URL computation as `apply_flow_rule`, but a `DELETE` with only
an `Accept` header and no body. -/
def remove_flow_rule (cfg : Config) (transport : HttpRequest → TransportOutcome)
    (ip_address : Option String) (flow_type : String)
    (node_id : String := "openflow:1") :
    Except PyExc (Bool × List LogEntry × List HttpRequest) :=
  if flow_type ≠ "src" ∧ flow_type ≠ "dst" then
    Except.ok (false,
      [log_message ("[ODL] Invalid flow_type \x27" ++ flow_type ++ "\x27 for IP "
        ++ pyOptStr ip_address) "error"], [])
  else
    match ip_address with
    | none => Except.error PyExc.attributeError
    | some ip =>
      let fid := flow_id_remove flow_type ip
      let table_id : Nat := 0
      let url := cfg.ODL_FLOW_BASE_URL ++ "/node/" ++ node_id ++ "/table/"
        ++ toString table_id ++ "/flow/" ++ fid
      let req : HttpRequest :=
        { method := "DELETE", url := url,
          headers := [("Accept", "application/json")],
          auth := (cfg.ODL_USERNAME, cfg.ODL_PASSWORD),
          timeout := 10,
          body := none,
          verify := false }
      match transport req with
      | TransportOutcome.exn e =>
        Except.ok (false,
          [log_message ("[ODL] Failed to remove flow rule: " ++ fid ++ " for IP "
            ++ ip ++ " (" ++ flow_type ++ "). Error: " ++ e
            ++ ". Response: None") "error"], [req])
      | TransportOutcome.resp status reason text =>
        match http_error_msg status reason url with
        | some e =>
          Except.ok (false,
            [log_message ("[ODL] Failed to remove flow rule: " ++ fid ++ " for IP "
              ++ ip ++ " (" ++ flow_type ++ "). Error: " ++ e
              ++ ". Response: " ++ text) "error"], [req])
        | none =>
          Except.ok (true,
            [log_message ("[ODL] Successfully removed flow rule: " ++ fid
              ++ " for IP " ++ ip ++ " (" ++ flow_type ++ ")") "info"], [req])

/-- `wazuh_parser.get_alert_data`, with its two effectful dependencies as
parameters: `stdin` is the outcome of `sys.stdin.read()` (a string, or the
message of whatever exception the read raised — caught by the broad
`except Exception` handler), and `loads` is `json.loads` (a parsed document,
or the message of the `JSONDecodeError` it raised).  The function itself is
total: every failure is caught and becomes an empty alert plus a log entry. -/
def get_alert_data (loads : String → Except String Json)
    (stdin : Except String String) : Json × List LogEntry :=
  let l0 := log_message "Attempting to read alert from STDIN." "info"
  match stdin with
  | Except.error e =>
    (Json.obj [], [l0,
      log_message ("An unexpected error occurred: " ++ e) "critical"])
  | Except.ok raw =>
    if raw = "" then
      (Json.obj [], [l0,
        log_message "STDIN was empty. No alert data to process." "warning"])
    else
      match loads raw with
      | Except.error e =>
        (Json.obj [], [l0,
          log_message ("Failed to decode JSON from STDIN: " ++ e) "error"])
      | Except.ok alert_json =>
        (alert_json, [l0, log_message "Successfully parsed JSON alert." "info"])

/-- Character discipline of a dotted-quad IPv4 address as passed to the Flow
Enforcer: digits and dots only (in particular no dash, so dot→dash
sanitization is reversible). -/
def ip_chars_ok (s : String) : Prop :=
  ∀ c ∈ s.data, c.isDigit ∨ c = '.'

instance (s : String) : Decidable (ip_chars_ok s) :=
  inferInstanceAs (Decidable (∀ c ∈ s.data, c.isDigit ∨ c = '.'))

/-- An alert matching rule 100001 and carrying its designated field. -/
def c1_alert : List (String × Json) :=
  [("rule", Json.obj [("id", Json.i 100001)]), ("srcip", Json.s "203.0.113.5")]

/-- An alert matching rule 100001 whose designated field `srcip` is absent. -/
def c2_alert : List (String × Json) :=
  [("rule", Json.obj [("id", Json.s "100001")])]

/-- An alert with no rule id and only a destination IP. -/
def c9_alert : List (String × Json) :=
  [("dstip", Json.s "198.51.100.7")]

/-- A concrete controller configuration for concrete evaluations. -/
def cfg0 : Config :=
  ⟨"http://controller:8181/restconf/config/opendaylight-inventory:nodes",
   "admin", "admin"⟩

/-- A controller that answers every request with `304 Not Modified` — a
non-2xx status outside the 400–599 range for which `raise_for_status`
raises. -/
def t304 : HttpRequest → TransportOutcome :=
  fun _ => TransportOutcome.resp 304 "Not Modified" ""

/-- A controller that answers every request with `500`. -/
def t500 : HttpRequest → TransportOutcome :=
  fun _ => TransportOutcome.resp 500 "Internal Server Error" "boom"

/-- A controller that answers every request with `200 OK`. -/
def t200 : HttpRequest → TransportOutcome :=
  fun _ => TransportOutcome.resp 200 "OK" ""

/-- A network on which every request raises a transport-level exception. -/
def tExn : HttpRequest → TransportOutcome :=
  fun _ => TransportOutcome.exn "connection refused"

/-- A concrete `json.loads` stand-in accepting exactly the document `{}`. -/
def loads0 : String → Except String Json :=
  fun raw =>
    if raw = "\x7b\x7d" then Except.ok (Json.obj [])
    else Except.error "Expecting value: line 1 column 1 (char 0)"

/-! ## Helper lemmas -/

theorem log_message_error (m : String) : log_message m "error" = ⟨"ERROR", m⟩ := rfl

theorem log_message_info (m : String) : log_message m "info" = ⟨"INFO", m⟩ := rfl

theorem log_message_warning (m : String) : log_message m "warning" = ⟨"WARNING", m⟩ := rfl

theorem log_message_critical (m : String) : log_message m "critical" = ⟨"CRITICAL", m⟩ := rfl

theorem run_raises_nameError (alert : List (String × Json))
    (hwf : alertWf alert = true) :
    extract_relevant_data_run alert = Except.error PyExc.nameError := by
  unfold extract_relevant_data_run
  unfold alertWf at hwf
  cases h1 : dGetD alert "rule" (Json.obj []) <;> rw [h1] at hwf <;>
    cases h2 : dGetD alert "agent" (Json.obj []) <;> rw [h2] at hwf <;>
    simp_all

/-! ## Claim theorems -/

/-- C1 fails on the code: at the scenario-A alert of the spec (rule id `100001`,
`srcip` present) `extract_relevant_data` raises `NameError` at its first
`log_message` call — `soar_logic.py` never imports the logger — instead of
returning `(srcip, "src", "openflow:1")`; the classification table in the
`match` statement is never reached as a returned value. -/
theorem C1_table_never_returned :
    rule_id_of c1_alert = "100001"
  ∧ src_ip_of c1_alert = Json.s "203.0.113.5"
  ∧ alertWf c1_alert = true
  ∧ extract_relevant_data_run c1_alert = Except.error PyExc.nameError :=
  ⟨rfl, rfl, rfl, rfl⟩

/-- C2 fails on the code at its own "in particular" input: for the alert with
rule id `"100001"` and `srcip` absent, no EnforcementTarget with a null IP and
null direction is produced — the call raises `NameError` at the first
`log_message` call and returns nothing. -/
theorem C2_run_counterexample :
    rule_id_of c2_alert = "100001"
  ∧ src_ip_of c2_alert = Json.null
  ∧ alertWf c2_alert = true
  ∧ extract_relevant_data_run c2_alert = Except.error PyExc.nameError :=
  ⟨rfl, rfl, rfl, rfl⟩

/-- C2 (amended): on a matched rule id whose designated field is absent (as on
every other alert), `extract_relevant_data` returns no EnforcementTarget at
all: the call raises `NameError` at its first `log_message` call, so no
null-IP/null-direction "no action" value is ever produced. -/
theorem C2_no_enforcement_target (alert : List (String × Json))
    (hwf : alertWf alert = true) :
    (rule_id_of alert = "100001" → src_ip_of alert = Json.null →
      extract_relevant_data_run alert = Except.error PyExc.nameError)
  ∧ (rule_id_of alert = "100002" → dst_ip_of alert = Json.null →
      extract_relevant_data_run alert = Except.error PyExc.nameError)
  ∧ (rule_id_of alert = "100003" → agent_ip_of alert = Json.null →
      extract_relevant_data_run alert = Except.error PyExc.nameError) :=
  ⟨fun _ _ => run_raises_nameError alert hwf,
   fun _ _ => run_raises_nameError alert hwf,
   fun _ _ => run_raises_nameError alert hwf⟩

theorem C2_no_enforcement_target_witness :
    alertWf c2_alert = true ∧ rule_id_of c2_alert = "100001"
  ∧ src_ip_of c2_alert = Json.null
  ∧ extract_relevant_data_run c2_alert = Except.error PyExc.nameError :=
  ⟨rfl, rfl, rfl, (C2_no_enforcement_target c2_alert rfl).1 rfl rfl⟩

/-- C8 fails on the code: `soar_logic.py` never imports `log_message` (and its
calls also omit the mandatory `level` argument), so `extract_relevant_data`
raises on every input — `NameError` at the first log call, or `AttributeError`
earlier when the `"rule"`/`"agent"` field is not a dict — and never returns a
triple. -/
theorem C8_run_always_raises :
    extract_relevant_data_run [] = Except.error PyExc.nameError
  ∧ ∀ alert, ∃ e, extract_relevant_data_run alert = Except.error e := by
  refine ⟨rfl, fun alert => ?_⟩
  unfold extract_relevant_data_run
  split
  · split
    · exact ⟨_, rfl⟩
    · exact ⟨_, rfl⟩
  · exact ⟨_, rfl⟩

/-- C9 fails on the code: the `match` statement assigns direction `"dst"`
only in its rule-`"100002"` arm, but no direction is ever returned — even on
an alert whose only IP is `dstip`, the call raises `NameError` at the first
`log_message` call before any classification result can be returned. -/
theorem C9_no_direction_returned :
    rule_id_of c9_alert = "N/A"
  ∧ dst_ip_of c9_alert = Json.s "198.51.100.7"
  ∧ alertWf c9_alert = true
  ∧ extract_relevant_data_run c9_alert = Except.error PyExc.nameError :=
  ⟨rfl, rfl, rfl, rfl⟩

theorem flow_id_apply_src (ip : String) :
    flow_id_apply "src" ip = "block-src-ip-" ++ sanitize_ip ip := rfl

theorem flow_id_apply_dst (ip : String) :
    flow_id_apply "dst" ip = "block-dst-ip-" ++ sanitize_ip ip := rfl

theorem sanitize_char_ne_dot (c : Char) :
    (if c = '.' then '-' else c) = '.' → False := by
  intro hc
  by_cases h : c = '.'
  · rw [if_pos h] at hc
    exact absurd hc (by decide)
  · rw [if_neg h] at hc
    exact h hc

theorem sanitize_char_inj (c d : Char) (hc : c.isDigit ∨ c = '.')
    (hd : d.isDigit ∨ d = '.')
    (h : (if c = '.' then '-' else c) = (if d = '.' then '-' else d)) : c = d := by
  by_cases h1 : c = '.' <;> by_cases h2 : d = '.'
  · rw [h1, h2]
  · rw [if_pos h1, if_neg h2] at h
    rcases hd with hd | hd
    · rw [← h] at hd
      exact absurd hd (by decide)
    · exact absurd hd h2
  · rw [if_neg h1, if_pos h2] at h
    rcases hc with hc | hc
    · rw [h] at hc
      exact absurd hc (by decide)
    · exact absurd hc h1
  · rw [if_neg h1, if_neg h2] at h
    exact h

theorem sanitize_map_inj (l : List Char) :
    ∀ l' : List Char, (∀ c ∈ l, c.isDigit ∨ c = '.') →
    (∀ c ∈ l', c.isDigit ∨ c = '.') →
    l.map (fun c => if c = '.' then '-' else c)
      = l'.map (fun c => if c = '.' then '-' else c) → l = l' := by
  induction l with
  | nil =>
    intro l' _ _ h
    cases l' with
    | nil => rfl
    | cons d t => simp at h
  | cons c t ih =>
    intro l' hc hd h
    cases l' with
    | nil => simp at h
    | cons d t' =>
      simp only [List.map_cons, List.cons.injEq] at h
      have hcd := sanitize_char_inj c d (hc c (List.mem_cons_self c t))
        (hd d (List.mem_cons_self d t')) h.1
      have ht := ih t' (fun x hx => hc x (List.mem_cons_of_mem c hx))
        (fun x hx => hd x (List.mem_cons_of_mem d hx)) h.2
      rw [hcd, ht]

theorem sanitize_ip_inj (ip ip' : String) (h1 : ip_chars_ok ip)
    (h2 : ip_chars_ok ip') (h : sanitize_ip ip = sanitize_ip ip') : ip = ip' :=
  String.ext (sanitize_map_inj ip.data ip'.data h1 h2 (congrArg String.data h))

/-- C4: the flow identifier is a pure deterministic function of
`(flow_type, ip)`, computed identically by `apply_flow_rule` and
`remove_flow_rule`; it never contains a dot; it separates distinct
`(direction, ip)` pairs; and `("src", "203.0.113.5")` yields
`"block-src-ip-203-0-113-5"`. -/
theorem C4_flow_id_pure_injective (ft ip ft2 ip2 : String)
    (hft : ft = "src" ∨ ft = "dst") (hft2 : ft2 = "src" ∨ ft2 = "dst")
    (hip : ip_chars_ok ip) (hip2 : ip_chars_ok ip2) :
    flow_id_apply ft ip = flow_id_remove ft ip
  ∧ flow_id_apply "src" "203.0.113.5" = "block-src-ip-203-0-113-5"
  ∧ (∀ c ∈ (flow_id_apply ft ip).data, c ≠ '.')
  ∧ ((ft, ip) ≠ (ft2, ip2) → flow_id_apply ft ip ≠ flow_id_apply ft2 ip2) := by
  refine ⟨rfl, rfl, ?_, ?_⟩
  · intro c hc hdot
    subst hdot
    have hdata : (flow_id_apply ft ip).data
        = (("block-" ++ ft ++ "-ip-" : String)).data
          ++ ip.data.map (fun c => if c = '.' then '-' else c) := by
      show (("block-" ++ ft ++ "-ip-" ++ sanitize_ip ip : String)).data = _
      rw [String.data_append]
      rfl
    rw [hdata] at hc
    rcases List.mem_append.mp hc with h1 | h1
    · rcases hft with h | h <;> subst h <;> revert h1 <;> decide
    · rcases List.mem_map.mp h1 with ⟨a, _, ha⟩
      exact sanitize_char_ne_dot a ha
  · intro hne heq
    rcases hft with h | h <;> rcases hft2 with h2 | h2 <;> subst h <;> subst h2
    · have hipne : ip ≠ ip2 := fun he => hne (by rw [he])
      rw [flow_id_apply_src, flow_id_apply_src] at heq
      have hd := congrArg String.data heq
      rw [String.data_append, String.data_append] at hd
      have := List.append_cancel_left hd
      exact hipne (sanitize_ip_inj ip ip2 hip hip2 (String.ext this))
    · rw [flow_id_apply_src, flow_id_apply_dst] at heq
      have hd := congrArg String.data heq
      rw [String.data_append, String.data_append] at hd
      have := (List.append_inj hd (by decide)).1
      exact absurd this (by decide)
    · rw [flow_id_apply_dst, flow_id_apply_src] at heq
      have hd := congrArg String.data heq
      rw [String.data_append, String.data_append] at hd
      have := (List.append_inj hd (by decide)).1
      exact absurd this (by decide)
    · have hipne : ip ≠ ip2 := fun he => hne (by rw [he])
      rw [flow_id_apply_dst, flow_id_apply_dst] at heq
      have hd := congrArg String.data heq
      rw [String.data_append, String.data_append] at hd
      have := List.append_cancel_left hd
      exact hipne (sanitize_ip_inj ip ip2 hip hip2 (String.ext this))

theorem C4_witness :
    ip_chars_ok "10.0.0.1" ∧ ip_chars_ok "10.0.0.2"
  ∧ flow_id_apply "src" "10.0.0.1" = flow_id_remove "src" "10.0.0.1"
  ∧ flow_id_apply "src" "10.0.0.1" ≠ flow_id_apply "dst" "10.0.0.2" :=
  ⟨by decide, by decide,
    (C4_flow_id_pure_injective "src" "10.0.0.1" "dst" "10.0.0.2"
      (Or.inl rfl) (Or.inr rfl) (by decide) (by decide)).1,
    (C4_flow_id_pure_injective "src" "10.0.0.1" "dst" "10.0.0.2"
      (Or.inl rfl) (Or.inr rfl) (by decide) (by decide)).2.2.2 (by decide)⟩

/-- C3: called with a direction outside `{"src", "dst"}`, both
`apply_flow_rule` and `remove_flow_rule` return `false` immediately, emit one
error-level diagnostic, and issue no HTTP request — for every `ip_address`,
including `None`. -/
theorem C3_invalid_flow_type (cfg : Config)
    (transport : HttpRequest → TransportOutcome) (ip : Option String)
    (ft node : String) (h1 : ft ≠ "src") (h2 : ft ≠ "dst") :
    apply_flow_rule cfg transport ip ft node = Except.ok (false,
      [⟨"ERROR", "[ODL] Invalid flow_type \x27" ++ ft ++ "\x27 for IP "
        ++ pyOptStr ip⟩], [])
  ∧ remove_flow_rule cfg transport ip ft node = Except.ok (false,
      [⟨"ERROR", "[ODL] Invalid flow_type \x27" ++ ft ++ "\x27 for IP "
        ++ pyOptStr ip⟩], []) := by
  constructor
  · simp only [apply_flow_rule]
    rw [if_pos ⟨h1, h2⟩]
    rfl
  · simp only [remove_flow_rule]
    rw [if_pos ⟨h1, h2⟩]
    rfl

theorem C3_witness :
    apply_flow_rule cfg0 t200 none "both" "openflow:1" = Except.ok (false,
      [⟨"ERROR", "[ODL] Invalid flow_type \x27" ++ "both" ++ "\x27 for IP "
        ++ pyOptStr none⟩], [])
  ∧ remove_flow_rule cfg0 t200 none "both" "openflow:1" = Except.ok (false,
      [⟨"ERROR", "[ODL] Invalid flow_type \x27" ++ "both" ++ "\x27 for IP "
        ++ pyOptStr none⟩], []) :=
  C3_invalid_flow_type cfg0 t200 none "both" "openflow:1" (by decide) (by decide)

/-- C10: only `flow_type` is validated.  With a direction outside
`{"src", "dst"}` both functions return `false` without raising even for a
`None` IP (the guard precedes sanitization); with a valid direction and a
`None` IP both functions raise `AttributeError` at
`ip_address.replace('.', '-')` instead of returning `false`. -/
theorem C10_none_ip_raises (cfg : Config)
    (transport : HttpRequest → TransportOutcome) (node ft ft2 : String)
    (hft : ft = "src" ∨ ft = "dst") (h1 : ft2 ≠ "src") (h2 : ft2 ≠ "dst") :
    apply_flow_rule cfg transport none ft node = Except.error PyExc.attributeError
  ∧ remove_flow_rule cfg transport none ft node = Except.error PyExc.attributeError
  ∧ apply_flow_rule cfg transport none ft2 node = Except.ok (false,
      [⟨"ERROR", "[ODL] Invalid flow_type \x27" ++ ft2 ++ "\x27 for IP "
        ++ pyOptStr none⟩], [])
  ∧ remove_flow_rule cfg transport none ft2 node = Except.ok (false,
      [⟨"ERROR", "[ODL] Invalid flow_type \x27" ++ ft2 ++ "\x27 for IP "
        ++ pyOptStr none⟩], []) := by
  refine ⟨?_, ?_, ?_, ?_⟩
  · rcases hft with h | h <;> subst h <;>
      (simp only [apply_flow_rule]; rw [if_neg (by simp)])
  · rcases hft with h | h <;> subst h <;>
      (simp only [remove_flow_rule]; rw [if_neg (by simp)])
  · simp only [apply_flow_rule]
    rw [if_pos ⟨h1, h2⟩]
    rfl
  · simp only [remove_flow_rule]
    rw [if_pos ⟨h1, h2⟩]
    rfl

theorem C10_witness :
    apply_flow_rule cfg0 t200 none "src" "openflow:1"
      = Except.error PyExc.attributeError
  ∧ remove_flow_rule cfg0 t200 none "src" "openflow:1"
      = Except.error PyExc.attributeError :=
  ⟨(C10_none_ip_raises cfg0 t200 "openflow:1" "src" "x"
      (Or.inl rfl) (by decide) (by decide)).1,
   (C10_none_ip_raises cfg0 t200 "openflow:1" "src" "x"
      (Or.inl rfl) (by decide) (by decide)).2.1⟩

theorem apply_req_url (cfg : Config) (node fid : String) :
    cfg.ODL_FLOW_BASE_URL ++ "/node/" ++ node ++ "/table/" ++ toString (0 : Nat)
      ++ "/flow/" ++ fid
    = cfg.ODL_FLOW_BASE_URL ++ "/node/" ++ node ++ "/table/0/flow/" ++ fid := by
  rw [String.append_assoc (cfg.ODL_FLOW_BASE_URL ++ "/node/" ++ node) "/table/"
    (toString (0 : Nat))]
  rw [show ("/table/" ++ toString (0 : Nat) : String) = "/table/0" from rfl]
  rw [String.append_assoc (cfg.ODL_FLOW_BASE_URL ++ "/node/" ++ node) "/table/0"
    "/flow/"]
  rw [show ("/table/0" ++ "/flow/" : String) = "/table/0/flow/" from rfl]

theorem http_error_client (st : Nat) (rsn url : String) (h4 : 400 ≤ st)
    (h5 : st < 500) :
    http_error_msg st rsn url
      = some (toString st ++ " Client Error: " ++ rsn ++ " for url: " ++ url) := by
  simp only [http_error_msg]
  rw [if_pos ⟨h4, h5⟩]

theorem http_error_server (st : Nat) (rsn url : String) (h5 : 500 ≤ st)
    (h6 : st < 600) :
    http_error_msg st rsn url
      = some (toString st ++ " Server Error: " ++ rsn ++ " for url: " ++ url) := by
  simp only [http_error_msg]
  rw [if_neg (fun hh => absurd h5 (Nat.not_le.mpr hh.2)), if_pos ⟨h5, h6⟩]

theorem http_error_none (st : Nat) (rsn url : String)
    (hn : ¬(400 ≤ st ∧ st < 600)) : http_error_msg st rsn url = none := by
  have hc1 : ¬(400 ≤ st ∧ st < 500) :=
    fun hh => hn ⟨hh.1, Nat.lt_trans hh.2 (by decide)⟩
  have hc2 : ¬(500 ≤ st ∧ st < 600) :=
    fun hh => hn ⟨Nat.le_trans (by decide) hh.1, hh.2⟩
  simp only [http_error_msg]
  rw [if_neg hc1, if_neg hc2]

/-- C5: `get_alert_data` is total — every failure mode is caught and becomes a
value.  A failing read yields the empty alert plus a critical-level
diagnostic; an empty stream yields the empty alert plus a warning-level
diagnostic; malformed JSON yields the empty alert plus an error-level
diagnostic carrying the parse failure reason; otherwise the parsed document
is returned. -/
theorem C5_get_alert_total (loads : String → Except String Json)
    (e raw pe : String) (j : Json) :
    get_alert_data loads (Except.error e) = (Json.obj [],
      [⟨"INFO", "Attempting to read alert from STDIN."⟩,
       ⟨"CRITICAL", "An unexpected error occurred: " ++ e⟩])
  ∧ get_alert_data loads (Except.ok "") = (Json.obj [],
      [⟨"INFO", "Attempting to read alert from STDIN."⟩,
       ⟨"WARNING", "STDIN was empty. No alert data to process."⟩])
  ∧ (raw ≠ "" → loads raw = Except.error pe →
      get_alert_data loads (Except.ok raw) = (Json.obj [],
        [⟨"INFO", "Attempting to read alert from STDIN."⟩,
         ⟨"ERROR", "Failed to decode JSON from STDIN: " ++ pe⟩]))
  ∧ (raw ≠ "" → loads raw = Except.ok j →
      get_alert_data loads (Except.ok raw) = (j,
        [⟨"INFO", "Attempting to read alert from STDIN."⟩,
         ⟨"INFO", "Successfully parsed JSON alert."⟩])) := by
  refine ⟨rfl, rfl, ?_, ?_⟩
  · intro h hl
    simp only [get_alert_data]
    rw [if_neg h, hl]
    rfl
  · intro h hl
    simp only [get_alert_data]
    rw [if_neg h, hl]
    rfl

theorem C5_witness :
    loads0 "not json" = Except.error "Expecting value: line 1 column 1 (char 0)"
  ∧ get_alert_data loads0 (Except.ok "not json") = (Json.obj [],
      [⟨"INFO", "Attempting to read alert from STDIN."⟩,
       ⟨"ERROR", "Failed to decode JSON from STDIN: "
         ++ "Expecting value: line 1 column 1 (char 0)"⟩])
  ∧ get_alert_data loads0 (Except.ok "\x7b\x7d") = (Json.obj [],
      [⟨"INFO", "Attempting to read alert from STDIN."⟩,
       ⟨"INFO", "Successfully parsed JSON alert."⟩]) :=
  ⟨rfl,
   (C5_get_alert_total loads0 "" "not json"
     "Expecting value: line 1 column 1 (char 0)" Json.null).2.2.1
     (by decide) rfl,
   (C5_get_alert_total loads0 "" "\x7b\x7d" "" (Json.obj [])).2.2.2
     (by decide) rfl⟩

/-- C6: on a valid direction, `apply_flow_rule` issues exactly one `PUT` to
`{base}/node/{node}/table/0/flow/{flow_id}` with JSON `Content-Type`/`Accept`
headers, basic auth, timeout 10, and a body whose single flow entry carries
the flow id, table 0, priority 65535, the Ethernet/IPv4 match keyed on the
direction as a `/32` CIDR, and one drop instruction; `remove_flow_rule`
issues exactly one `DELETE` to the same URL with only an `Accept` header and
no body. -/
theorem C6_request_shape (cfg : Config)
    (transport : HttpRequest → TransportOutcome) (ip ft node : String)
    (hft : ft = "src" ∨ ft = "dst") :
    (apply_flow_rule cfg transport (some ip) ft node).map (fun r => r.2.2)
      = Except.ok [{
          method := "PUT",
          url := cfg.ODL_FLOW_BASE_URL ++ "/node/" ++ node ++ "/table/0/flow/"
            ++ flow_id_apply ft ip,
          headers := [("Content-Type", "application/json"),
            ("Accept", "application/json")],
          auth := (cfg.ODL_USERNAME, cfg.ODL_PASSWORD),
          timeout := 10,
          body := some (Json.obj [("flow", Json.arr [Json.obj [
            ("id", Json.s (flow_id_apply ft ip)),
            ("table_id", Json.i 0),
            ("flow-name", Json.s ("Block " ++ ft ++ " IP " ++ ip)),
            ("priority", Json.i 65535),
            ("match", if ft = "src" then
                Json.obj [("ethernet-match", Json.obj [("ethernet-type",
                    Json.obj [("type", Json.i 2048)])]),
                  ("ipv4-source", Json.s (ip ++ "/32"))]
              else
                Json.obj [("ethernet-match", Json.obj [("ethernet-type",
                    Json.obj [("type", Json.i 2048)])]),
                  ("ipv4-destination", Json.s (ip ++ "/32"))]),
            ("instructions", Json.obj [("instruction", Json.arr [Json.obj [
              ("order", Json.i 0),
              ("apply-actions", Json.obj [("action", Json.arr [Json.obj [
                ("order", Json.i 0),
                ("drop-action", Json.obj [])]])])]])])]])]),
          verify := false }]
  ∧ (remove_flow_rule cfg transport (some ip) ft node).map (fun r => r.2.2)
      = Except.ok [{
          method := "DELETE",
          url := cfg.ODL_FLOW_BASE_URL ++ "/node/" ++ node ++ "/table/0/flow/"
            ++ flow_id_remove ft ip,
          headers := [("Accept", "application/json")],
          auth := (cfg.ODL_USERNAME, cfg.ODL_PASSWORD),
          timeout := 10,
          body := none,
          verify := false }] := by
  constructor
  · rcases hft with h | h <;> subst h <;>
    · simp only [apply_flow_rule]
      rw [if_neg (by simp)]
      rw [apply_req_url]
      split
      · rfl
      · split <;> rfl
  · rcases hft with h | h <;> subst h <;>
    · simp only [remove_flow_rule]
      rw [if_neg (by simp)]
      rw [apply_req_url]
      split
      · rfl
      · split <;> rfl

theorem C6_witness :
    (apply_flow_rule cfg0 t200 (some "10.0.0.1") "src" "openflow:1").map
      (fun r => r.2.2)
      = Except.ok [{
          method := "PUT",
          url := "http://controller:8181/restconf/config/opendaylight-inventory:nodes/node/openflow:1/table/0/flow/block-src-ip-10-0-0-1",
          headers := [("Content-Type", "application/json"),
            ("Accept", "application/json")],
          auth := ("admin", "admin"),
          timeout := 10,
          body := some (flow_payload "src" "10.0.0.1"),
          verify := false }] :=
  (C6_request_shape cfg0 t200 "10.0.0.1" "src" "openflow:1" (Or.inl rfl)).1

/-- C7 fails as stated: a `304 Not Modified` response is not 2xx, yet
`raise_for_status` raises only for status 400–599, so `apply_flow_rule`
returns `true` with an informational (not error) diagnostic. -/
theorem C7_counterexample :
    (apply_flow_rule cfg0 t304 (some "203.0.113.5") "src" "openflow:1").map
      (fun r => (r.1, r.2.1))
    = Except.ok (true, [⟨"INFO",
        "[ODL] Successfully applied flow rule: block-src-ip-203-0-113-5 for IP 203.0.113.5 (src)"⟩]) :=
  rfl

/-- C7 (amended): the single HTTP attempt fully determines the outcome.  A
transport-level failure, or a response with status 400–599 (the statuses for
which `raise_for_status` raises), is caught: one error-level diagnostic
carrying the flow id, the IP, the direction, the underlying error and the
response body (when one was returned) is logged and the function returns
`false`.  A response with any other status logs one informational diagnostic
and returns `true`.  Exactly one request is issued — no retry. -/
theorem C7_single_attempt_outcome (cfg : Config)
    (t : HttpRequest → TransportOutcome) (ip ft node : String)
    (hft : ft = "src" ∨ ft = "dst") :
    (∀ e, (∀ r, t r = TransportOutcome.exn e) →
      (∃ req, apply_flow_rule cfg t (some ip) ft node = Except.ok (false,
        [⟨"ERROR", "[ODL] Failed to apply flow rule: " ++ flow_id_apply ft ip
          ++ " for IP " ++ ip ++ " (" ++ ft ++ "). Error: " ++ e
          ++ ". Response: None"⟩], [req]))
      ∧ (∃ req, remove_flow_rule cfg t (some ip) ft node = Except.ok (false,
        [⟨"ERROR", "[ODL] Failed to remove flow rule: " ++ flow_id_remove ft ip
          ++ " for IP " ++ ip ++ " (" ++ ft ++ "). Error: " ++ e
          ++ ". Response: None"⟩], [req])))
  ∧ (∀ st rsn txt, (∀ r, t r = TransportOutcome.resp st rsn txt) →
      400 ≤ st → st < 600 →
      (∃ req e, apply_flow_rule cfg t (some ip) ft node = Except.ok (false,
        [⟨"ERROR", "[ODL] Failed to apply flow rule: " ++ flow_id_apply ft ip
          ++ " for IP " ++ ip ++ " (" ++ ft ++ "). Error: " ++ e
          ++ ". Response: " ++ txt⟩], [req])
        ∧ http_error_msg st rsn req.url = some e)
      ∧ (∃ req e, remove_flow_rule cfg t (some ip) ft node = Except.ok (false,
        [⟨"ERROR", "[ODL] Failed to remove flow rule: " ++ flow_id_remove ft ip
          ++ " for IP " ++ ip ++ " (" ++ ft ++ "). Error: " ++ e
          ++ ". Response: " ++ txt⟩], [req])
        ∧ http_error_msg st rsn req.url = some e))
  ∧ (∀ st rsn txt, (∀ r, t r = TransportOutcome.resp st rsn txt) →
      ¬(400 ≤ st ∧ st < 600) →
      (∃ req, apply_flow_rule cfg t (some ip) ft node = Except.ok (true,
        [⟨"INFO", "[ODL] Successfully applied flow rule: " ++ flow_id_apply ft ip
          ++ " for IP " ++ ip ++ " (" ++ ft ++ ")"⟩], [req]))
      ∧ (∃ req, remove_flow_rule cfg t (some ip) ft node = Except.ok (true,
        [⟨"INFO", "[ODL] Successfully removed flow rule: " ++ flow_id_remove ft ip
          ++ " for IP " ++ ip ++ " (" ++ ft ++ ")"⟩], [req]))) := by
  refine ⟨?_, ?_, ?_⟩
  · intro e ht
    constructor
    · rcases hft with h | h <;> subst h <;>
      · simp only [apply_flow_rule]
        rw [if_neg (by simp)]
        simp only [ht]
        exact ⟨_, rfl⟩
    · rcases hft with h | h <;> subst h <;>
      · simp only [remove_flow_rule]
        rw [if_neg (by simp)]
        simp only [ht]
        exact ⟨_, rfl⟩
  · intro st rsn txt ht h4 h6
    constructor
    · rcases hft with h | h <;> subst h <;>
      · simp only [apply_flow_rule]
        rw [if_neg (by simp)]
        simp only [ht]
        rcases Nat.lt_or_ge st 500 with h5 | h5
        · rw [http_error_client st rsn _ h4 h5]
          exact ⟨_, _, rfl, http_error_client st rsn _ h4 h5⟩
        · rw [http_error_server st rsn _ h5 h6]
          exact ⟨_, _, rfl, http_error_server st rsn _ h5 h6⟩
    · rcases hft with h | h <;> subst h <;>
      · simp only [remove_flow_rule]
        rw [if_neg (by simp)]
        simp only [ht]
        rcases Nat.lt_or_ge st 500 with h5 | h5
        · rw [http_error_client st rsn _ h4 h5]
          exact ⟨_, _, rfl, http_error_client st rsn _ h4 h5⟩
        · rw [http_error_server st rsn _ h5 h6]
          exact ⟨_, _, rfl, http_error_server st rsn _ h5 h6⟩
  · intro st rsn txt ht hn
    constructor
    · rcases hft with h | h <;> subst h <;>
      · simp only [apply_flow_rule]
        rw [if_neg (by simp)]
        simp only [ht]
        rw [http_error_none st rsn _ hn]
        exact ⟨_, rfl⟩
    · rcases hft with h | h <;> subst h <;>
      · simp only [remove_flow_rule]
        rw [if_neg (by simp)]
        simp only [ht]
        rw [http_error_none st rsn _ hn]
        exact ⟨_, rfl⟩

theorem C7_witness :
    ∃ req e, apply_flow_rule cfg0 t500 (some "10.0.0.1") "src" "openflow:1"
      = Except.ok (false,
        [⟨"ERROR", "[ODL] Failed to apply flow rule: "
          ++ flow_id_apply "src" "10.0.0.1" ++ " for IP " ++ "10.0.0.1"
          ++ " (" ++ "src" ++ "). Error: " ++ e ++ ". Response: " ++ "boom"⟩],
        [req])
      ∧ http_error_msg 500 "Internal Server Error" req.url = some e :=
  ((C7_single_attempt_outcome cfg0 t500 "10.0.0.1" "src" "openflow:1"
      (Or.inl rfl)).2.1 500 "Internal Server Error" "boom"
    (fun _ => rfl) (by decide) (by decide)).1
